import Mathlib

/-!
Shallow embedding of the lane-boundary observation factor of
`src/localization/lane.py` (class `GeoLaneBoundaryFactor` and the two
module-level helpers `compute_normal_form_line_coeffs` and `compute_H`),
together with theorems settling the frozen claims about it.

Numbers are embedded as real numbers; numpy 2-vectors as pairs or
`Fin 2 → ℝ`; numpy matrices as Mathlib matrices.  Python exceptions are
embedded as an `Except` result; the mutation of instance attributes that
`error` performs is embedded as explicit state passing: `error` returns the
pair (raised-or-returned value, updated factor state), where the state
component also records the attribute writes that happened before a raise.
-/

/-- A lane-marking record in the mobileye-like format used by the factor:
the detection and every expected marking carry the two curve coefficients
returned by `get_c0c1_list()` and a discrete semantic `type` label
(embedded as a natural number). -/
structure LaneMarking where
  c0 : ℝ
  c1 : ℝ
  ty : ℕ

/-- A minisam SE2 pose variable as `error` reads it: `pose.translation()`
gives `(x, y)` and `pose.so2().theta()` gives `theta`. -/
structure SE2Pose where
  x : ℝ
  y : ℝ
  theta : ℝ

/-- The expected-lane extractor interface consumed by the factor:
`extract(location, orientation)` returns the triple
`(in_junction, into_junction, expected markings)`.  The three components
are embedded as three functions of the query so that theorems can vary
them independently. -/
structure ExpectedLaneExtractor where
  inJunctionAt : ℝ × ℝ × ℝ → ℝ × ℝ × ℝ → Bool
  intoJunctionAt : ℝ × ℝ × ℝ → ℝ × ℝ × ℝ → Bool
  featuresAt : ℝ × ℝ × ℝ → ℝ × ℝ × ℝ → List LaneMarking

/-- The extractor call `extract(fbumper_location, orientation)`. -/
def ExpectedLaneExtractor.extract (E : ExpectedLaneExtractor)
    (location orientation : ℝ × ℝ × ℝ) : Bool × Bool × List LaneMarking :=
  (E.inJunctionAt location orientation, E.intoJunctionAt location orientation,
    E.featuresAt location orientation)

/-- Python exceptions that the embedded methods can raise. -/
inductive PyErr where
  | runtimeError (msg : String)
  | typeError (msg : String)
  | unboundLocalError (name : String)
  deriving DecidableEq

/-- Modelled from the spec: `carlasim.carla_tform.Transform` (not under
`src/`) as used by the factor stores the reference pose from which it was
built; `from_conventional(location, orientation)` records that pose. -/
structure Transform where
  loc : ℝ × ℝ × ℝ
  ori : ℝ × ℝ × ℝ

/-- Modelled from the spec: building a `Transform` from a conventional
location and roll/pitch/yaw orientation. -/
def Transform.from_conventional (location orientation : ℝ × ℝ × ℝ) : Transform :=
  { loc := location, ori := orientation }

/-- Modelled from the spec: `tform_w2e_numpy_array` re-expresses a world
point in the frame of the recorded pose ("pose difference is wrt local
frame"); with roll = pitch = 0 this rotates the planar offset by the
recorded heading and passes z through. -/
noncomputable def Transform.tform_w2e_numpy_array (t : Transform)
    (p : ℝ × ℝ × ℝ) : ℝ × ℝ × ℝ :=
  let th := t.ori.2.2
  let ux := p.1 - t.loc.1
  let uy := p.2.1 - t.loc.2.1
  (Real.cos th * ux + Real.sin th * uy,
   -Real.sin th * ux + Real.cos th * uy,
   p.2.2 - t.loc.2.2)

/-- Modelled from the spec: `carlasim.utils.get_fbumper_location` (not
under `src/`) offsets the query location by the raxle-to-front-bumper
distance along the heading (third orientation component). -/
noncomputable def get_fbumper_location (location orientation : ℝ × ℝ × ℝ)
    (dist : ℝ) : ℝ × ℝ × ℝ :=
  (location.1 + dist * Real.cos orientation.2.2,
   location.2.1 + dist * Real.sin orientation.2.2,
   location.2.2)

/-- `scipy.stats.multivariate_normal.pdf` for a 2-vector `x` and a 2x2
covariance `cov`:  `exp(-xᵀ cov⁻¹ x / 2) / (2 π sqrt (det cov))`. -/
noncomputable def mvnpdf2 (x : Fin 2 → ℝ) (cov : Matrix (Fin 2) (Fin 2) ℝ) : ℝ :=
  Real.exp (-(Matrix.dotProduct x (cov⁻¹.mulVec x)) / 2) /
    (2 * Real.pi * Real.sqrt cov.det)

/-- `compute_normal_form_line_coeffs(px, expected_c0, expected_c1)`:
normal form `(a, b, c, alpha)` of the lane boundary `a x + b y = c` with
relative heading `alpha`. -/
noncomputable def compute_normal_form_line_coeffs (px expected_c0 expected_c1 : ℝ) :
    ℝ × ℝ × ℝ × ℝ :=
  let alpha := Real.arctan expected_c1
  let a_L := -Real.sin alpha
  let b_L := Real.cos alpha
  let c_L := a_L * px + b_L * expected_c0
  (a_L, b_L, c_L, alpha)

/-- `compute_H(px, expected_c0, expected_c1)`: the 2x3 Jacobian of the
measurement model with respect to the pose. -/
noncomputable def compute_H (px expected_c0 expected_c1 : ℝ) :
    Matrix (Fin 2) (Fin 3) ℝ :=
  let nf := compute_normal_form_line_coeffs px expected_c0 expected_c1
  let a := nf.1
  let b := nf.2.1
  let c := nf.2.2.1
  let alpha := nf.2.2.2
  let h13 := -px + (-a * c + a * a * px) / b ^ 2
  Matrix.of ![![expected_c1, -1, h13], ![0, 0, -1 / Real.cos alpha ^ 2]]

/-- The numerator of the `c0` drift-transform formula in
`GeoLaneBoundaryFactor._compute_expected_c0c1`:
`c - a dx - a px cos dθ - b dy - b px sin dθ`. -/
noncomputable def driftNumerator (px : ℝ) (normal_form : ℝ × ℝ × ℝ × ℝ)
    (pose_diff : ℝ × ℝ × ℝ) : ℝ :=
  normal_form.2.2.1 - normal_form.1 * pose_diff.1 -
    normal_form.1 * px * Real.cos pose_diff.2.2 -
    normal_form.2.1 * pose_diff.2.1 -
    normal_form.2.1 * px * Real.sin pose_diff.2.2

/-- The denominator of the `c0` drift-transform formula in
`GeoLaneBoundaryFactor._compute_expected_c0c1`:
`-a sin dθ + b cos dθ`. -/
noncomputable def driftDenominator (normal_form : ℝ × ℝ × ℝ × ℝ)
    (pose_diff : ℝ × ℝ × ℝ) : ℝ :=
  -normal_form.1 * Real.sin pose_diff.2.2 + normal_form.2.1 * Real.cos pose_diff.2.2

/-- The per-factor configuration dictionary keys that
`GeoLaneBoundaryFactor.__init__` reads. -/
structure LaneFactorConfig where
  stddev_c0 : ℝ
  stddev_c1 : ℝ
  prob_null : ℝ
  static : Bool

/-- The state of one `GeoLaneBoundaryFactor` instance: its construction
arguments and every instance attribute that `__init__` initialises and
`error` may rewrite.  The class attribute `expected_lane_extractor` is
recorded per instance at construction. -/
structure GeoLaneBoundaryFactor where
  detected_marking : LaneMarking
  z : ℝ
  pose_uncert : Matrix (Fin 3) (Fin 3) ℝ
  px : ℝ
  config : LaneFactorConfig
  noise_cov : Matrix (Fin 2) (Fin 2) ℝ
  prob_null : ℝ
  static : Bool
  in_junction : Bool
  into_junction : Bool
  me_format_expected_markings : Option (List LaneMarking)
  _init_tform : Option Transform
  _init_orientation : Option (ℝ × ℝ × ℝ)
  _first_time : Bool
  _init_normal_forms : Option (List (ℝ × ℝ × ℝ × ℝ))
  expected_coeffs : Option (ℝ × ℝ)
  _scale : ℝ
  _null_hypo : Bool
  expected_lane_extractor : ExpectedLaneExtractor

/-- Class attribute `sem_gate = 0.9` (the semantic gate threshold). -/
noncomputable def GeoLaneBoundaryFactor.sem_gate : ℝ := 0.9

/-- Class attribute `_null_hypo_normal_form = (0, 1, 0, 0)`: normal form of
the null-hypothesis vertical line through the local-frame origin. -/
def GeoLaneBoundaryFactor._null_hypo_normal_form : ℝ × ℝ × ℝ × ℝ := (0, 1, 0, 0)

/-- `GeoLaneBoundaryFactor._conditional_prob_type`: the semantic
compatibility probability of an expected and a measured type label. -/
noncomputable def GeoLaneBoundaryFactor._conditional_prob_type
    (expected_type measured_type : ℕ) : ℝ :=
  if expected_type = measured_type then 0.95 else 0.0045

/-- `GeoLaneBoundaryFactor.__init__`: raises `RuntimeError` when the class
attribute `expected_lane_extractor` is still `None`, otherwise creates the
instance with all attributes initialised as in the source. -/
noncomputable def GeoLaneBoundaryFactor.init
    (expected_lane_extractor : Option ExpectedLaneExtractor)
    (detected_marking : LaneMarking) (z : ℝ)
    (pose_uncert : Matrix (Fin 3) (Fin 3) ℝ) (dist_raxle_to_fbumper : ℝ)
    (lane_factor_config : LaneFactorConfig) :
    Except PyErr GeoLaneBoundaryFactor :=
  match expected_lane_extractor with
  | none =>
    Except.error (PyErr.runtimeError
      "Extractor for expected lane should be initialized first.")
  | some ext =>
    Except.ok
      { detected_marking := detected_marking
        z := z
        pose_uncert := pose_uncert
        px := dist_raxle_to_fbumper
        config := lane_factor_config
        noise_cov := Matrix.diagonal ![lane_factor_config.stddev_c0,
          lane_factor_config.stddev_c1]
        prob_null := lane_factor_config.prob_null
        static := lane_factor_config.static
        in_junction := false
        into_junction := false
        me_format_expected_markings := none
        _init_tform := none
        _init_orientation := none
        _first_time := true
        _init_normal_forms := none
        expected_coeffs := none
        _scale := 1
        _null_hypo := false
        expected_lane_extractor := ext }

/-- `GeoLaneBoundaryFactor._get_pose_diff`: pose difference of the given
location/orientation from the initially guessed pose, with respect to the
local frame; raises `RuntimeError` when the initial pose was never
recorded. -/
noncomputable def GeoLaneBoundaryFactor._get_pose_diff (s : GeoLaneBoundaryFactor)
    (location orientation : ℝ × ℝ × ℝ) : Except PyErr (ℝ × ℝ × ℝ) :=
  match s._init_tform, s._init_orientation with
  | some t, some o =>
    let delta := t.tform_w2e_numpy_array location
    Except.ok (delta.1, delta.2.1, orientation.2.2 - o.2.2)
  | _, _ => Except.error (PyErr.runtimeError "Initial pose not initialized yet.")

/-- `GeoLaneBoundaryFactor._compute_expected_c0c1`: expected `(c0, c1)`
from a snapshot normal form and a pose difference.  The `c0` component is
the quotient `driftNumerator / driftDenominator` exactly as written in the
source, with no guard on the denominator. -/
noncomputable def GeoLaneBoundaryFactor._compute_expected_c0c1
    (s : GeoLaneBoundaryFactor) (normal_form : ℝ × ℝ × ℝ × ℝ)
    (pose_diff : ℝ × ℝ × ℝ) : ℝ × ℝ :=
  (driftNumerator s.px normal_form pose_diff / driftDenominator normal_form pose_diff,
   Real.tan (normal_form.2.2.2 - pose_diff.2.2))

/-- `np.argmax` on a list of reals: index of the first maximal element
(0 on the empty input), via the running-best recursion `npArgmaxGo`. -/
noncomputable def npArgmaxGo : List ℝ → ℕ → ℕ → ℝ → ℕ
  | [], _, besti, _ => besti
  | v :: rest, i, besti, bestv =>
    if v > bestv then npArgmaxGo rest (i + 1) i v
    else npArgmaxGo rest (i + 1) besti bestv

/-- `np.argmax` on a list of reals. -/
noncomputable def npArgmax : List ℝ → ℕ
  | [] => 0
  | v :: rest => npArgmaxGo rest 1 0 v

/-- The measurement / data-association part of `GeoLaneBoundaryFactor.error`
(source lines 173-251), taken after the expectation phase produced the
state `s2`, the expected coefficient list, and the (possibly unassigned)
local `expected_type_list`.  Factored out verbatim so that theorems can
reason about it separately; `error` calls it. -/
noncomputable def GeoLaneBoundaryFactor.errorTail (s2 : GeoLaneBoundaryFactor)
    (location orientation : ℝ × ℝ × ℝ)
    (expected_coeffs_list : List (ℝ × ℝ)) (expected_type_list : Option (List ℕ)) :
    Except PyErr (ℝ × ℝ) × GeoLaneBoundaryFactor :=
  let innov_matrices := expected_coeffs_list.map fun ec =>
    let H := compute_H s2.px ec.1 ec.2
    H * s2.pose_uncert * H.transpose + s2.noise_cov
  let measured_coeffs : ℝ × ℝ := (s2.detected_marking.c0, s2.detected_marking.c1)
  let measured_type := s2.detected_marking.ty
  match s2._get_pose_diff location orientation with
  | Except.error e => (Except.error e, s2)
  | Except.ok pose_diff =>
    let null_c0c1 := s2._compute_expected_c0c1
      GeoLaneBoundaryFactor._null_hypo_normal_form pose_diff
    let s3 := { s2 with expected_coeffs := some null_c0c1 }
    let null_e : ℝ × ℝ := ((null_c0c1.1 - measured_coeffs.1) * 1e-2,
                           (null_c0c1.2 - measured_coeffs.2) * 1e-2)
    let null_M := s3.prob_null *
      mvnpdf2 ![null_e.1, null_e.2] (Matrix.diagonal ![3e3, 3e3])
    let s4 := { s3 with in_junction := false
                        into_junction := false }
    if s4.in_junction || s4.into_junction then
      (Except.ok null_e, { s4 with _null_hypo := true
                                   expected_coeffs := some null_c0c1 })
    else
      match expected_coeffs_list with
      | [] =>
        (Except.ok null_e, { s4 with _null_hypo := true
                                     expected_coeffs := some null_c0c1 })
      | _ :: _ =>
        match expected_type_list with
        | none => (Except.error (PyErr.unboundLocalError "expected_type_list"), s4)
        | some type_list =>
          let triples := expected_coeffs_list.zip (type_list.zip innov_matrices)
          let gated := triples.filter fun t =>
            decide (GeoLaneBoundaryFactor._conditional_prob_type t.2.1 measured_type >
              GeoLaneBoundaryFactor.sem_gate)
          let errors_tail := gated.map fun t =>
            (t.1.1 - measured_coeffs.1, t.1.2 - measured_coeffs.2)
          let gated_coeffs_tail := gated.map fun t => t.1
          let pps := gated.map fun t =>
            mvnpdf2 ![t.1.1 - measured_coeffs.1, t.1.2 - measured_coeffs.2] t.2.2
          let Hw := gated.map fun t =>
            mvnpdf2 ![t.1.1 - measured_coeffs.1, t.1.2 - measured_coeffs.2] t.2.2 *
              GeoLaneBoundaryFactor._conditional_prob_type t.2.1 measured_type
          match Hw with
          | [] =>
            (Except.ok null_e,
             { s4 with _null_hypo := true
                       expected_coeffs := some null_c0c1 })
          | _ :: _ =>
            let W_tail := Hw.map fun hv => (1 - s4.prob_null) * (hv / Hw.sum)
            let M_tail := (W_tail.zip pps).map fun q => q.1 * q.2
            let W := s4.prob_null :: W_tail
            let M := null_M :: M_tail
            let asso_idx := npArgmax M
            let scale := W.getD asso_idx 0 ^ 2
            let s5 := { s4 with _scale := scale
                                expected_coeffs :=
                                  some ((null_c0c1 :: gated_coeffs_tail).getD asso_idx (0, 0)) }
            match asso_idx with
            | 0 =>
              (Except.ok null_e,
               { s5 with _null_hypo := true
                         expected_coeffs := some null_c0c1 })
            | Nat.succ k =>
              let er := (null_e :: errors_tail).getD (k + 1) (0, 0)
              (Except.ok (er.1 * scale, er.2 * scale), { s5 with _null_hypo := false })

set_option maxHeartbeats 1000000 in
/-- `GeoLaneBoundaryFactor.error(variables)`: one residual evaluation at the
pose `variables.at(self.keys()[0])`.  Returns the residual (or the raised
exception) together with the updated instance state; the state component
records exactly the attribute writes the source performs before it returns
or raises.  Two Python behaviours are embedded explicitly: in static mode
the local variable `expected_type_list` is never assigned (the expectation
phase yields `none` for it), so reaching the data-association loop raises
`UnboundLocalError`; and the junction flags obtained from the extractor are
unconditionally overwritten with `False` just before the junction test. -/
noncomputable def GeoLaneBoundaryFactor.error (s : GeoLaneBoundaryFactor)
    (pose : SE2Pose) : Except PyErr (ℝ × ℝ) × GeoLaneBoundaryFactor :=
  let location : ℝ × ℝ × ℝ := (pose.x, pose.y, s.z)
  let orientation : ℝ × ℝ × ℝ := (0, 0, pose.theta)
  let s1 : GeoLaneBoundaryFactor :=
    if s._first_time then
      { s with _init_tform := some (Transform.from_conventional location orientation)
               _init_orientation := some orientation }
    else s
  let expectation : Except PyErr (GeoLaneBoundaryFactor × List (ℝ × ℝ) × Option (List ℕ)) :=
    if s1.static then
      if s1._first_time then
        let fbumper_location := get_fbumper_location location orientation s1.px
        let ext := s1.expected_lane_extractor.extract fbumper_location orientation
        let expected_coeffs_list := ext.2.2.map fun m => (m.c0, m.c1)
        Except.ok
          ({ s1 with in_junction := ext.1
                     into_junction := ext.2.1
                     me_format_expected_markings := some ext.2.2
                     _init_normal_forms := some (expected_coeffs_list.map fun c =>
                       compute_normal_form_line_coeffs s1.px c.1 c.2)
                     _first_time := false },
           expected_coeffs_list, none)
      else
        match s1._get_pose_diff location orientation with
        | Except.error e => Except.error e
        | Except.ok pose_diff =>
          match s1._init_normal_forms with
          | none => Except.error (PyErr.typeError "NoneType object is not iterable")
          | some nfs =>
            Except.ok (s1, nfs.map fun nf => s1._compute_expected_c0c1 nf pose_diff, none)
    else
      let fbumper_location := get_fbumper_location location orientation s1.px
      let ext := s1.expected_lane_extractor.extract fbumper_location orientation
      Except.ok
        ({ s1 with in_junction := ext.1
                   into_junction := ext.2.1
                   me_format_expected_markings := some ext.2.2 },
         ext.2.2.map fun m => (m.c0, m.c1), some (ext.2.2.map fun m => m.ty))
  match expectation with
  | Except.error e => (Except.error e, s1)
  | Except.ok (s2, expected_coeffs_list, expected_type_list) =>
    GeoLaneBoundaryFactor.errorTail s2 location orientation
      expected_coeffs_list expected_type_list

/-- `GeoLaneBoundaryFactor.jacobians(variables)`: unpacks
`self.expected_coeffs` (a `TypeError` when it is still `None`), computes
the H matrix there and scales it by `1e-2` under the null hypothesis and by
`self._scale` otherwise. -/
noncomputable def GeoLaneBoundaryFactor.jacobians (s : GeoLaneBoundaryFactor) :
    Except PyErr (Matrix (Fin 2) (Fin 3) ℝ) :=
  match s.expected_coeffs with
  | none => Except.error (PyErr.typeError "cannot unpack non-iterable NoneType object")
  | some ec =>
    let jacob := compute_H s.px ec.1 ec.2
    if s._null_hypo then Except.ok ((1e-2 : ℝ) • jacob)
    else Except.ok (s._scale • jacob)

/-- C7: for all pairs of type labels, `_conditional_prob_type` returns
exactly 0.95 when the expected and detected type labels are equal and
exactly 0.0045 when they differ; in particular it is never zero. -/
theorem C7_conditional_prob_type_spec (t1 t2 : ℕ) :
    (t1 = t2 → GeoLaneBoundaryFactor._conditional_prob_type t1 t2 = 0.95) ∧
    (t1 ≠ t2 → GeoLaneBoundaryFactor._conditional_prob_type t1 t2 = 0.0045) ∧
    GeoLaneBoundaryFactor._conditional_prob_type t1 t2 ≠ 0 := by
  unfold GeoLaneBoundaryFactor._conditional_prob_type
  by_cases h : t1 = t2 <;> simp [h] <;> norm_num

/-- Witness for C7 at the concrete type labels 3 and 4. -/
theorem C7_witness :
    GeoLaneBoundaryFactor._conditional_prob_type 3 3 = 0.95 ∧
    GeoLaneBoundaryFactor._conditional_prob_type 3 4 = 0.0045 ∧
    GeoLaneBoundaryFactor._conditional_prob_type 3 4 ≠ 0 :=
  ⟨(C7_conditional_prob_type_spec 3 3).1 rfl,
   (C7_conditional_prob_type_spec 3 4).2.1 (by decide),
   (C7_conditional_prob_type_spec 3 4).2.2⟩

/-- C6: for any factor (hence any `px`) and any line `(c0, c1)` (every real
`c1` equals `tan alpha` for `alpha = arctan c1` strictly inside
`(-pi/2, pi/2)`), composing `compute_normal_form_line_coeffs` with the
drift transform `_compute_expected_c0c1` at pose difference `(0, 0, 0)`
reproduces `(c0, c1)` exactly. -/
theorem C6_zero_drift_round_trip (s : GeoLaneBoundaryFactor) (c0 c1 : ℝ) :
    s._compute_expected_c0c1 (compute_normal_form_line_coeffs s.px c0 c1)
      ((0 : ℝ), (0 : ℝ), (0 : ℝ)) = (c0, c1) := by
  have hcos : Real.cos (Real.arctan c1) ≠ 0 := by
    have h1 : (0 : ℝ) < Real.cos (Real.arctan c1) := Real.cos_arctan_pos c1
    exact ne_of_gt h1
  unfold GeoLaneBoundaryFactor._compute_expected_c0c1 driftNumerator driftDenominator
    compute_normal_form_line_coeffs
  simp only [Real.cos_zero, Real.sin_zero, sub_zero, Real.tan_arctan,
    mul_zero, mul_one, zero_mul, neg_zero, zero_add, add_zero, neg_mul]
  rw [Prod.mk.injEq]
  constructor
  · rw [div_eq_iff hcos]
    ring
  · rfl

/-- C5: the `c0` component of the drift transform
`_compute_expected_c0c1` is, for every input, the unguarded quotient
`driftNumerator / driftDenominator`, and at the degenerate input
(the null-hypothesis normal form `(0, 1, 0, 0)` with pose difference
`dθ = π/2`) the denominator is exactly zero: the source contains no guard,
clamping, or fallback for the near-zero denominator. -/
theorem C5_drift_division_unguarded :
    (∀ (s : GeoLaneBoundaryFactor) (nf : ℝ × ℝ × ℝ × ℝ) (pd : ℝ × ℝ × ℝ),
      (s._compute_expected_c0c1 nf pd).1 =
        driftNumerator s.px nf pd / driftDenominator nf pd) ∧
    driftDenominator GeoLaneBoundaryFactor._null_hypo_normal_form
      ((0 : ℝ), (0 : ℝ), Real.pi / 2) = 0 := by
  constructor
  · intro s nf pd
    rfl
  · unfold driftDenominator GeoLaneBoundaryFactor._null_hypo_normal_form
    simp [Real.cos_pi_div_two]

/-- C8: constructing a `GeoLaneBoundaryFactor` with the class attribute
`expected_lane_extractor` unset raises `RuntimeError` and produces no
instance; with the extractor set, construction succeeds. -/
theorem C8_construction_requires_extractor
    (dm : LaneMarking) (z : ℝ) (pu : Matrix (Fin 3) (Fin 3) ℝ) (px : ℝ)
    (cfg : LaneFactorConfig) (ext : ExpectedLaneExtractor) :
    GeoLaneBoundaryFactor.init none dm z pu px cfg =
      Except.error (PyErr.runtimeError
        "Extractor for expected lane should be initialized first.") ∧
    (GeoLaneBoundaryFactor.init (some ext) dm z pu px cfg).isOk = true :=
  ⟨rfl, rfl⟩

/-- `npArgmaxGo` never leaves the bounds of the scanned prefix: if the
running best index is below `n` and the remaining indices stay below `n`,
so does the result. -/
theorem npArgmaxGo_lt (l : List ℝ) (i besti : ℕ) (bestv : ℝ) (n : ℕ)
    (hb : besti < n) (hi : i + l.length ≤ n) : npArgmaxGo l i besti bestv < n := by
  induction l generalizing i besti bestv with
  | nil => simpa [npArgmaxGo] using hb
  | cons v rest ih =>
    simp only [List.length_cons] at hi
    simp only [npArgmaxGo]
    split
    · exact ih (i + 1) i v (by omega) (by omega)
    · exact ih (i + 1) besti bestv hb (by omega)

/-- `npArgmax` of a nonempty list is a valid index. -/
theorem npArgmax_lt_length (v : ℝ) (rest : List ℝ) :
    npArgmax (v :: rest) < (v :: rest).length := by
  simp only [npArgmax, List.length_cons]
  exact npArgmaxGo_lt rest 1 0 v (rest.length + 1) (by omega) (by omega)

/-- The embedded Gaussian density is nonnegative. -/
theorem mvnpdf2_nonneg (x : Fin 2 → ℝ) (cov : Matrix (Fin 2) (Fin 2) ℝ) :
    0 ≤ mvnpdf2 x cov := by
  unfold mvnpdf2
  apply div_nonneg (le_of_lt (Real.exp_pos _))
  positivity

/-- The semantic gate passes a candidate exactly when its expected type
label equals the measured one (0.95 > 0.9 while 0.0045 ≤ 0.9). -/
theorem gate_pass_iff (a b : ℕ) :
    (GeoLaneBoundaryFactor._conditional_prob_type a b >
      GeoLaneBoundaryFactor.sem_gate) ↔ a = b := by
  unfold GeoLaneBoundaryFactor._conditional_prob_type GeoLaneBoundaryFactor.sem_gate
  by_cases h : a = b <;> simp only [h, if_true, if_false, iff_true, iff_false] <;> norm_num [h]

set_option maxHeartbeats 1000000 in
/-- `errorTail` never writes the snapshot attributes nor `_first_time`:
whatever it returns or raises, they are carried over from its input
state. -/
theorem errorTail_preserves_snapshot (t : GeoLaneBoundaryFactor)
    (loc ori : ℝ × ℝ × ℝ) (ecl : List (ℝ × ℝ)) (etl : Option (List ℕ)) :
    ((t.errorTail loc ori ecl etl).2)._init_tform = t._init_tform ∧
    ((t.errorTail loc ori ecl etl).2)._init_orientation = t._init_orientation ∧
    ((t.errorTail loc ori ecl etl).2)._init_normal_forms = t._init_normal_forms ∧
    ((t.errorTail loc ori ecl etl).2)._first_time = t._first_time := by
  unfold GeoLaneBoundaryFactor.errorTail
  repeat' (first | split | simp only [Bool.or_self, Bool.false_eq_true, if_false])
  all_goals simp_all

set_option maxHeartbeats 1000000 in
/-- Once `_first_time` is `false`, a further `error` evaluation (whether it
returns or raises) leaves the snapshot attributes `_init_tform`,
`_init_orientation` and `_init_normal_forms` untouched and keeps
`_first_time` equal to `false`. -/
theorem error_preserves_snapshot (s : GeoLaneBoundaryFactor) (pose : SE2Pose)
    (h : s._first_time = false) :
    ((s.error pose).2)._init_tform = s._init_tform ∧
    ((s.error pose).2)._init_orientation = s._init_orientation ∧
    ((s.error pose).2)._init_normal_forms = s._init_normal_forms ∧
    ((s.error pose).2)._first_time = false := by
  unfold GeoLaneBoundaryFactor.error
  simp only [h, Bool.false_eq_true, if_false]
  cases hstat : s.static with
  | true =>
    simp only [hstat, if_true]
    rcases hpd : s._get_pose_diff (pose.x, pose.y, s.z) (0, 0, pose.theta) with e | pd
    · simp [hpd, h]
    · simp only [hpd]
      rcases hnf : s._init_normal_forms with _ | nfs
      · simp [hnf, h]
      · simp only [hnf]
        refine ⟨(errorTail_preserves_snapshot _ _ _ _ _).1.trans (by simp),
                (errorTail_preserves_snapshot _ _ _ _ _).2.1.trans (by simp),
                (errorTail_preserves_snapshot _ _ _ _ _).2.2.1.trans (by simp [hnf]),
                (errorTail_preserves_snapshot _ _ _ _ _).2.2.2.trans (by simp [h])⟩
  | false =>
    simp only [hstat, Bool.false_eq_true, if_false]
    refine ⟨(errorTail_preserves_snapshot _ _ _ _ _).1.trans (by simp),
            (errorTail_preserves_snapshot _ _ _ _ _).2.1.trans (by simp),
            (errorTail_preserves_snapshot _ _ _ _ _).2.2.1.trans (by simp),
            (errorTail_preserves_snapshot _ _ _ _ _).2.2.2.trans (by simp [h])⟩

/-- Folding any number of further `error` evaluations over any pose list
preserves the snapshot attributes once `_first_time` is `false`. -/
theorem foldl_error_preserves_snapshot (ps : List SE2Pose) (t : GeoLaneBoundaryFactor)
    (h : t._first_time = false) :
    (ps.foldl (fun u q => (u.error q).2) t)._init_tform = t._init_tform ∧
    (ps.foldl (fun u q => (u.error q).2) t)._init_orientation = t._init_orientation ∧
    (ps.foldl (fun u q => (u.error q).2) t)._init_normal_forms = t._init_normal_forms ∧
    (ps.foldl (fun u q => (u.error q).2) t)._first_time = false := by
  induction ps generalizing t with
  | nil => exact ⟨rfl, rfl, rfl, h⟩
  | cons q qs ih =>
    simp only [List.foldl_cons]
    obtain ⟨h1, h2, h3, h4⟩ := error_preserves_snapshot t q h
    obtain ⟨g1, g2, g3, g4⟩ := ih ((t.error q).2) h4
    exact ⟨g1.trans h1, g2.trans h2, g3.trans h3, g4⟩

set_option maxHeartbeats 1000000 in
/-- C3: in static mode the snapshot state (the normal forms
`_init_normal_forms` and the reference pose `_init_tform` /
`_init_orientation`) is captured during the first call to `error` — the
normal forms of the markings the extractor reports at the first-call query
pose — and no sequence of subsequent `error` evaluations at any trial
poses ever overwrites it. -/
theorem C3_static_snapshot_write_once (s : GeoLaneBoundaryFactor) (pose : SE2Pose)
    (rest : List SE2Pose) (hstatic : s.static = true)
    (hfirst : s._first_time = true) :
    (((s.error pose).2)._init_tform =
        some (Transform.from_conventional (pose.x, pose.y, s.z) (0, 0, pose.theta)) ∧
      ((s.error pose).2)._init_orientation = some ((0 : ℝ), (0 : ℝ), pose.theta) ∧
      ((s.error pose).2)._init_normal_forms =
        some (((s.expected_lane_extractor.featuresAt
              (get_fbumper_location (pose.x, pose.y, s.z) (0, 0, pose.theta) s.px)
              (0, 0, pose.theta)).map fun m => (m.c0, m.c1)).map fun c =>
            compute_normal_form_line_coeffs s.px c.1 c.2) ∧
      ((s.error pose).2)._first_time = false) ∧
    ((rest.foldl (fun u q => (u.error q).2) ((s.error pose).2))._init_tform =
        ((s.error pose).2)._init_tform ∧
      (rest.foldl (fun u q => (u.error q).2) ((s.error pose).2))._init_orientation =
        ((s.error pose).2)._init_orientation ∧
      (rest.foldl (fun u q => (u.error q).2) ((s.error pose).2))._init_normal_forms =
        ((s.error pose).2)._init_normal_forms) := by
  have hcapture :
      ((s.error pose).2)._init_tform =
        some (Transform.from_conventional (pose.x, pose.y, s.z) (0, 0, pose.theta)) ∧
      ((s.error pose).2)._init_orientation = some ((0 : ℝ), (0 : ℝ), pose.theta) ∧
      ((s.error pose).2)._init_normal_forms =
        some (((s.expected_lane_extractor.featuresAt
              (get_fbumper_location (pose.x, pose.y, s.z) (0, 0, pose.theta) s.px)
              (0, 0, pose.theta)).map fun m => (m.c0, m.c1)).map fun c =>
            compute_normal_form_line_coeffs s.px c.1 c.2) ∧
      ((s.error pose).2)._first_time = false := by
    unfold GeoLaneBoundaryFactor.error
    simp only [hfirst, hstatic, if_true, ExpectedLaneExtractor.extract]
    refine ⟨(errorTail_preserves_snapshot _ _ _ _ _).1.trans (by simp),
            (errorTail_preserves_snapshot _ _ _ _ _).2.1.trans (by simp),
            (errorTail_preserves_snapshot _ _ _ _ _).2.2.1.trans (by simp),
            (errorTail_preserves_snapshot _ _ _ _ _).2.2.2.trans (by simp)⟩
  refine ⟨hcapture, ?_⟩
  obtain ⟨g1, g2, g3, _⟩ :=
    foldl_error_preserves_snapshot rest ((s.error pose).2) hcapture.2.2.2
  exact ⟨g1, g2, g3⟩

set_option maxHeartbeats 1000000 in
/-- Every state that `errorTail` returns together with an `Except.ok`
result has both junction flags equal to `false`: they are reset just
before the junction test on every path that returns. -/
theorem errorTail_ok_flags (t : GeoLaneBoundaryFactor) (loc ori : ℝ × ℝ × ℝ)
    (ecl : List (ℝ × ℝ)) (etl : Option (List ℕ)) (r : ℝ × ℝ)
    (u : GeoLaneBoundaryFactor) (h : t.errorTail loc ori ecl etl = (Except.ok r, u)) :
    u.in_junction = false ∧ u.into_junction = false := by
  unfold GeoLaneBoundaryFactor.errorTail at h
  repeat' (first
    | (split at h)
    | (simp only [Bool.or_self, Bool.false_eq_true, if_false] at h))
  all_goals (first
    | (injection h with hv hs; subst hs; exact ⟨rfl, rfl⟩)
    | (injection h with hv hs; cases hv))

set_option maxHeartbeats 1000000 in
/-- Every `error` call that returns (rather than raises) leaves both
junction flags equal to `false`, regardless of what the extractor
reported. -/
theorem error_ok_flags (s : GeoLaneBoundaryFactor) (pose : SE2Pose)
    (r : ℝ × ℝ) (u : GeoLaneBoundaryFactor) (h : s.error pose = (Except.ok r, u)) :
    u.in_junction = false ∧ u.into_junction = false := by
  unfold GeoLaneBoundaryFactor.error at h
  cases hft : s._first_time <;> cases hstat : s.static <;>
    simp only [hft, hstat, Bool.false_eq_true, if_false, if_true] at h
  all_goals (repeat' (first
    | (split at h)
    | (simp only [Bool.or_self, Bool.false_eq_true, if_false] at h)))
  all_goals (first
    | (exact errorTail_ok_flags _ _ _ _ _ _ _ h)
    | (simp only [Prod.mk.injEq] at h; simp_all))

set_option maxHeartbeats 4000000 in
/-- The value component (returned residual or raised exception) of
`errorTail` does not depend on the junction flags stored in the state nor
on the extractor: those fields are overwritten or unused before any read.
Stated over two explicit states differing exactly in `in_junction`,
`into_junction` and `expected_lane_extractor`. -/
theorem errorTail_fst_ignores_flags
    (dm : LaneMarking) (z : ℝ) (pu : Matrix (Fin 3) (Fin 3) ℝ) (px : ℝ)
    (cfg : LaneFactorConfig) (ncov : Matrix (Fin 2) (Fin 2) ℝ) (pn : ℝ) (st : Bool)
    (j1 j2 j1' j2' : Bool) (mfm : Option (List LaneMarking))
    (itf : Option Transform) (io : Option (ℝ × ℝ × ℝ)) (ft : Bool)
    (inf : Option (List (ℝ × ℝ × ℝ × ℝ))) (ec : Option (ℝ × ℝ)) (sc : ℝ) (nh : Bool)
    (E Ep : ExpectedLaneExtractor) (loc ori : ℝ × ℝ × ℝ)
    (ecl : List (ℝ × ℝ)) (etl : Option (List ℕ)) :
    (GeoLaneBoundaryFactor.errorTail
        ⟨dm, z, pu, px, cfg, ncov, pn, st, j1, j2, mfm, itf, io, ft, inf, ec, sc, nh, E⟩
        loc ori ecl etl).1 =
    (GeoLaneBoundaryFactor.errorTail
        ⟨dm, z, pu, px, cfg, ncov, pn, st, j1', j2', mfm, itf, io, ft, inf, ec, sc, nh, Ep⟩
        loc ori ecl etl).1 := by
  unfold GeoLaneBoundaryFactor.errorTail
  simp only [GeoLaneBoundaryFactor._get_pose_diff,
    GeoLaneBoundaryFactor._compute_expected_c0c1]
  rcases itf with _ | tf <;> rcases io with _ | o0 <;>
    repeat' (first
      | rfl
      | (simp only [Bool.or_self, Bool.false_eq_true, if_false])
      | (split <;> try simp only [*]))

set_option maxHeartbeats 4000000 in
/-- C9: after every `error` call that returns, the instance attributes
`in_junction` and `into_junction` are both `False` regardless of what the
extractor reported (they are unconditionally reset just before the
junction test), and the value `error` returns is independent of the
junction flags the extractor reports: the junction branch of the
association algorithm never fires. -/
theorem C9_junction_flags_reset (s : GeoLaneBoundaryFactor) (pose : SE2Pose)
    (f1 f2 g1 g2 : ℝ × ℝ × ℝ → ℝ × ℝ × ℝ → Bool)
    (feats : ℝ × ℝ × ℝ → ℝ × ℝ × ℝ → List LaneMarking) :
    (∀ (r : ℝ × ℝ) (u : GeoLaneBoundaryFactor),
      s.error pose = (Except.ok r, u) →
        u.in_junction = false ∧ u.into_junction = false) ∧
    (({ s with expected_lane_extractor := ⟨f1, f2, feats⟩ } :
        GeoLaneBoundaryFactor).error pose).1 =
    (({ s with expected_lane_extractor := ⟨g1, g2, feats⟩ } :
        GeoLaneBoundaryFactor).error pose).1 := by
  refine ⟨fun r u h => error_ok_flags s pose r u h, ?_⟩
  unfold GeoLaneBoundaryFactor.error
  simp only [ExpectedLaneExtractor.extract]
  cases hft : s._first_time <;> cases hstat : s.static <;>
    simp only [hft, hstat, Bool.false_eq_true, if_false, if_true]
  · apply errorTail_fst_ignores_flags
  · rcases hti : s._init_tform with _ | tf <;>
      rcases hio : s._init_orientation with _ | o0 <;>
      simp only [hti, hio, GeoLaneBoundaryFactor._get_pose_diff,
        GeoLaneBoundaryFactor._compute_expected_c0c1] <;>
      try rfl
    rcases hnf : s._init_normal_forms with _ | nfs <;> simp only [hnf]
    apply errorTail_fst_ignores_flags
  · apply errorTail_fst_ignores_flags
  · apply errorTail_fst_ignores_flags

/-- `getD` of a mapped list at an in-bounds index, with arbitrary
defaults. -/
theorem getD_map_of_lt {α β : Type} (f : α → β) (l : List α) (k : ℕ)
    (d : α) (d2 : β) (hk : k < l.length) :
    (l.map f).getD k d2 = f (l.getD k d) := by
  rw [List.getD_eq_getElem _ _ (by simpa using hk), List.getD_eq_getElem _ _ hk,
    List.getElem_map]

/-- If `np.argmax` of a nonempty list returns a successor index, that
index is within the tail. -/
theorem npArgmax_eq_succ_lt (v : ℝ) (rest : List ℝ) (k : ℕ)
    (h : npArgmax (v :: rest) = k + 1) : k < rest.length := by
  have h1 := npArgmax_lt_length v rest
  rw [h] at h1
  simp only [List.length_cons] at h1
  omega

set_option maxHeartbeats 4000000 in
/-- Inversion of a matched (non-null) association: when `errorTail`
returns with `_null_hypo = false`, the type list was assigned, the winner
is entry `k` of the gated candidate list (every member of which passed the
semantic gate), the stored scale is the squared normalized weight
`((1 - prob_null) * (Hw[k] / Hw.sum))^2`, and the returned residual is the
winner's raw error multiplied by that scale. -/
theorem errorTail_matched_inv (t : GeoLaneBoundaryFactor) (loc ori : ℝ × ℝ × ℝ)
    (ecl : List (ℝ × ℝ)) (etl : Option (List ℕ)) (r : ℝ × ℝ)
    (u : GeoLaneBoundaryFactor)
    (h : t.errorTail loc ori ecl etl = (Except.ok r, u))
    (hnull : u._null_hypo = false) :
    ∃ (tyl : List ℕ)
      (gated : List ((ℝ × ℝ) × ℕ × Matrix (Fin 2) (Fin 2) ℝ)) (k : ℕ),
      etl = some tyl ∧
      gated = (ecl.zip (tyl.zip (ecl.map fun ec2 =>
          compute_H t.px ec2.1 ec2.2 * t.pose_uncert *
            (compute_H t.px ec2.1 ec2.2).transpose + t.noise_cov))).filter
        (fun c => decide (GeoLaneBoundaryFactor._conditional_prob_type c.2.1
            t.detected_marking.ty > GeoLaneBoundaryFactor.sem_gate)) ∧
      k < gated.length ∧
      u._scale = ((1 - t.prob_null) *
        ((gated.map fun c =>
            mvnpdf2 ![c.1.1 - t.detected_marking.c0, c.1.2 - t.detected_marking.c1] c.2.2 *
              GeoLaneBoundaryFactor._conditional_prob_type c.2.1
                t.detected_marking.ty).getD k 0 /
         (gated.map fun c =>
            mvnpdf2 ![c.1.1 - t.detected_marking.c0, c.1.2 - t.detected_marking.c1] c.2.2 *
              GeoLaneBoundaryFactor._conditional_prob_type c.2.1
                t.detected_marking.ty).sum)) ^ 2 ∧
      u.expected_coeffs = some ((gated.map fun c => c.1).getD k (0, 0)) ∧
      r = (((gated.map fun c => (c.1.1 - t.detected_marking.c0,
              c.1.2 - t.detected_marking.c1)).getD k (0, 0)).1 * u._scale,
           ((gated.map fun c => (c.1.1 - t.detected_marking.c0,
              c.1.2 - t.detected_marking.c1)).getD k (0, 0)).2 * u._scale) ∧
      u._null_hypo = false ∧ u.px = t.px ∧ u.prob_null = t.prob_null ∧
      u.detected_marking = t.detected_marking := by
  unfold GeoLaneBoundaryFactor.errorTail at h
  split at h
  · injection h with hv hs
    cases hv
  rename_i pd hpd
  simp only [Bool.or_self, Bool.false_eq_true, if_false] at h
  split at h
  · injection h with hv hs
    subst hs
    simp at hnull
  rename_i hd tl hecl
  split at h
  · injection h with hv hs
    cases hv
  rename_i tyl hetl
  split at h
  · injection h with hv hs
    subst hs
    simp at hnull
  rename_i v rest hHw
  split at h
  · injection h with hv hs
    subst hs
    simp at hnull
  rename_i k hk
  injection h with hv hs
  subst hs
  injection hv with hv2
  subst hv2
  have h1 := npArgmax_eq_succ_lt _ _ _ hk
  simp only [List.length_map, List.length_zip, min_self] at h1
  refine ⟨hetl, _, k, rfl, rfl, h1, ?_, ?_, ?_, rfl, rfl, rfl, rfl⟩
  · simp only [hk, List.getD_cons_succ]
    rw [getD_map_of_lt _ _ _ 0 _ (by simpa using h1)]
  · simp only [hk, List.getD_cons_succ]
  · simp only [hk, List.getD_cons_succ]

/-- The semantic compatibility probability is nonnegative. -/
theorem conditional_prob_type_nonneg (a b : ℕ) :
    0 ≤ GeoLaneBoundaryFactor._conditional_prob_type a b := by
  unfold GeoLaneBoundaryFactor._conditional_prob_type
  split <;> norm_num

set_option maxHeartbeats 1000000 in
/-- `errorTail` never writes `me_format_expected_markings`. -/
theorem errorTail_preserves_me_format (t : GeoLaneBoundaryFactor)
    (loc ori : ℝ × ℝ × ℝ) (ecl : List (ℝ × ℝ)) (etl : Option (List ℕ)) :
    ((t.errorTail loc ori ecl etl).2).me_format_expected_markings =
      t.me_format_expected_markings := by
  unfold GeoLaneBoundaryFactor.errorTail
  repeat' (first | split | simp only [Bool.or_self, Bool.false_eq_true, if_false])
  all_goals simp_all

set_option maxHeartbeats 4000000 in
/-- Matched-association inversion for a dynamic-mode expectation: the
winner corresponds to an actual extractor marking that passed the semantic
gate (hence its type label equals the detection's), the scale is the
squared normalized weight built from nonnegative gated weights, and the
returned residual is the winner's raw error times that scale. -/
theorem errorTail_dynamic_matched (T : GeoLaneBoundaryFactor)
    (mks : List LaneMarking) (loc ori : ℝ × ℝ × ℝ) (r : ℝ × ℝ)
    (u : GeoLaneBoundaryFactor)
    (h : T.errorTail loc ori (mks.map fun m => (m.c0, m.c1))
        (some (mks.map fun m => m.ty)) = (Except.ok r, u))
    (hnull : u._null_hypo = false) :
    ∃ (m : LaneMarking) (Hw : List ℝ) (k : ℕ),
      m ∈ mks ∧
      u.expected_coeffs = some (m.c0, m.c1) ∧
      GeoLaneBoundaryFactor._conditional_prob_type m.ty T.detected_marking.ty >
        GeoLaneBoundaryFactor.sem_gate ∧
      m.ty = T.detected_marking.ty ∧
      (∀ x ∈ Hw, 0 ≤ x) ∧ k < Hw.length ∧
      u._scale = ((1 - T.prob_null) * (Hw.getD k 0 / Hw.sum)) ^ 2 ∧
      r = ((m.c0 - T.detected_marking.c0) * u._scale,
           (m.c1 - T.detected_marking.c1) * u._scale) ∧
      u._null_hypo = false := by
  obtain ⟨tyl, gated, k, hetl, hgated, hklen, hscale, hcoef, hres, hnl, hpx, hprob, hdm⟩ :=
    errorTail_matched_inv _ _ _ _ _ _ _ h hnull
  injection hetl with hty
  subst hty
  rw [List.map_map, List.zip_map', List.zip_map'] at hgated
  have hmem : gated.getD k ((0, 0), 0, 0) ∈ gated := by
    rw [List.getD_eq_getElem _ _ hklen]
    exact List.getElem_mem _
  nth_rewrite 1 [hgated] at hmem
  obtain ⟨hxmem, hpdec⟩ := List.mem_filter.mp hmem
  obtain ⟨m, hm, hFm⟩ := List.mem_map.mp hxmem
  have h1 : (gated.getD k ((0, 0), 0, 0)).1 = (m.c0, m.c1) := by rw [← hFm]
  have h2 : (gated.getD k ((0, 0), 0, 0)).2.1 = m.ty := by rw [← hFm]
  have hgate : GeoLaneBoundaryFactor._conditional_prob_type m.ty T.detected_marking.ty >
      GeoLaneBoundaryFactor.sem_gate := by
    have := of_decide_eq_true hpdec
    rwa [h2] at this
  refine ⟨m, _, k, hm, ?_, hgate, (gate_pass_iff _ _).mp hgate, ?_, ?_, hscale, ?_, hnl⟩
  · rw [getD_map_of_lt _ _ _ ((0, 0), 0, 0) _ hklen, h1] at hcoef
    exact hcoef
  · intro x2 hx2
    obtain ⟨c, _, rfl⟩ := List.mem_map.mp hx2
    exact mul_nonneg (mvnpdf2_nonneg _ _) (conditional_prob_type_nonneg _ _)
  · simpa [List.length_map] using hklen
  · rw [getD_map_of_lt _ _ _ ((0, 0), 0, 0) _ hklen, h1] at hres
    exact hres

set_option maxHeartbeats 4000000 in
/-- Master inversion of a matched (non-null) winning association at the
`error` level: it can only happen in dynamic mode, the winner corresponds
to a marking the extractor actually returned for the query, that marking
passed the semantic gate (so its type label equals the detection's), the
stored scale is the squared normalized weight of the winner, and the
returned residual is the winner's raw error multiplied by the scale. -/
theorem error_matched_inv (s : GeoLaneBoundaryFactor) (pose : SE2Pose)
    (r : ℝ × ℝ) (u : GeoLaneBoundaryFactor)
    (h : s.error pose = (Except.ok r, u)) (hnull : u._null_hypo = false) :
    ∃ (mks : List LaneMarking) (m : LaneMarking) (Hw : List ℝ) (k : ℕ),
      s.static = false ∧
      mks = s.expected_lane_extractor.featuresAt
        (get_fbumper_location (pose.x, pose.y, s.z) (0, 0, pose.theta) s.px)
        (0, 0, pose.theta) ∧
      u.me_format_expected_markings = some mks ∧
      m ∈ mks ∧
      u.expected_coeffs = some (m.c0, m.c1) ∧
      GeoLaneBoundaryFactor._conditional_prob_type m.ty s.detected_marking.ty >
        GeoLaneBoundaryFactor.sem_gate ∧
      m.ty = s.detected_marking.ty ∧
      (∀ x ∈ Hw, 0 ≤ x) ∧ k < Hw.length ∧
      u._scale = ((1 - s.prob_null) * (Hw.getD k 0 / Hw.sum)) ^ 2 ∧
      r = ((m.c0 - s.detected_marking.c0) * u._scale,
           (m.c1 - s.detected_marking.c1) * u._scale) ∧
      u._null_hypo = false := by
  unfold GeoLaneBoundaryFactor.error at h
  cases hft : s._first_time <;> cases hstat : s.static <;>
    simp only [hft, hstat, Bool.false_eq_true, if_false, if_true,
      ExpectedLaneExtractor.extract] at h
  · obtain ⟨m, Hw, k, hm, hcoef, hgate, hty, hnn, hkl, hscale, hres, hnl⟩ :=
      errorTail_dynamic_matched _ _ _ _ _ _ h hnull
    refine ⟨_, m, Hw, k, rfl, rfl, ?_, hm, hcoef, hgate, hty, hnn, hkl, hscale, hres, hnl⟩
    exact (congrArg (fun p => p.2.me_format_expected_markings) h).symm.trans
      (errorTail_preserves_me_format _ _ _ _ _)
  · rcases hpd : s._get_pose_diff (pose.x, pose.y, s.z) (0, 0, pose.theta) with e | pd <;>
      simp only [hpd] at h
    · injection h with hv hs
      cases hv
    · rcases hnf : s._init_normal_forms with _ | nfs <;> simp only [hnf] at h
      · injection h with hv hs
        cases hv
      · obtain ⟨tyl0, g0, k0, hetl0, _⟩ :=
          errorTail_matched_inv _ _ _ _ _ _ _ h hnull
        cases hetl0
  · obtain ⟨m, Hw, k, hm, hcoef, hgate, hty, hnn, hkl, hscale, hres, hnl⟩ :=
      errorTail_dynamic_matched _ _ _ _ _ _ h hnull
    refine ⟨_, m, Hw, k, rfl, rfl, ?_, hm, hcoef, hgate, hty, hnn, hkl, hscale, hres, hnl⟩
    exact (congrArg (fun p => p.2.me_format_expected_markings) h).symm.trans
      (errorTail_preserves_me_format _ _ _ _ _)
  · obtain ⟨tyl0, g0, k0, hetl0, _⟩ := errorTail_matched_inv _ _ _ _ _ _ _ h hnull
    cases hetl0

/-- The Gaussian density at the zero vector for an isotropic diagonal
covariance `diag(a, a)` with `a ≥ 0`. -/
theorem mvnpdf2_zero_diag (a : ℝ) (ha : 0 ≤ a) :
    mvnpdf2 ![0, 0] (Matrix.diagonal ![a, a]) = 1 / (2 * Real.pi * a) := by
  unfold mvnpdf2
  have h0 : Matrix.dotProduct ![(0 : ℝ), 0]
      ((Matrix.diagonal ![a, a])⁻¹.mulVec ![0, 0]) = 0 := by
    simp [Matrix.dotProduct, Fin.sum_univ_two]
  rw [h0]
  have hdet : (Matrix.diagonal ![a, a]).det = a ^ 2 := by
    simp [Matrix.det_diagonal, Fin.prod_univ_two]
    ring
  rw [hdet, Real.sqrt_sq ha]
  simp

/-- `np.argmax` on a two-element list returns 1 when the second element is
strictly larger. -/
theorem npArgmax_pair_snd (m0 m1 : ℝ) (h : m1 > m0) : npArgmax [m0, m1] = 1 := by
  simp only [npArgmax, npArgmaxGo, if_pos h]

/-- Concrete extractor used in the witnesses and the counterexample: it
reports being inside a junction and returns one expected marking whose
geometry and type coincide with the detection used alongside it. -/
noncomputable def csExtractor : ExpectedLaneExtractor where
  inJunctionAt := fun _ _ => true
  intoJunctionAt := fun _ _ => false
  featuresAt := fun _ _ => [{ c0 := 0, c1 := 0, ty := 0 }]

/-- Concrete factor configuration for the witnesses. -/
noncomputable def csConfig : LaneFactorConfig where
  stddev_c0 := 1
  stddev_c1 := 1
  prob_null := 1 / 2
  static := false

/-- Concrete freshly-constructed dynamic-mode factor: detection
`(c0, c1, type) = (0, 0, 0)`, zero pose uncertainty, unit noise diagonal,
`prob_null = 1/2`, extractor `csExtractor`. -/
noncomputable def csFactor : GeoLaneBoundaryFactor where
  detected_marking := { c0 := 0, c1 := 0, ty := 0 }
  z := 0
  pose_uncert := 0
  px := 0
  config := csConfig
  noise_cov := Matrix.diagonal ![1, 1]
  prob_null := 1 / 2
  static := false
  in_junction := false
  into_junction := false
  me_format_expected_markings := none
  _init_tform := none
  _init_orientation := none
  _first_time := true
  _init_normal_forms := none
  expected_coeffs := none
  _scale := 1
  _null_hypo := false
  expected_lane_extractor := csExtractor

/-- Concrete query pose at the origin. -/
noncomputable def csPose : SE2Pose where
  x := 0
  y := 0
  theta := 0

set_option maxHeartbeats 8000000 in
/-- Evaluating the concrete factor at the origin pose: the matched
candidate wins the association (its posterior exceeds the null weight), so
the call returns the zero residual with the null hypothesis off. -/
theorem csFactor_eval :
    csFactor.error csPose =
      (Except.ok (0, 0), (csFactor.error csPose).2) ∧
    ((csFactor.error csPose).2)._null_hypo = false := by
  have hπ : (0 : ℝ) < Real.pi := Real.pi_pos
  have hq3 : mvnpdf2 ![0, 0] (Matrix.diagonal ![(3000 : ℝ), 3000]) =
      1 / (2 * Real.pi * 3000) := mvnpdf2_zero_diag _ (by norm_num)
  have hq1 : mvnpdf2 ![0, 0] (Matrix.diagonal ![(1 : ℝ), 1]) =
      1 / (2 * Real.pi * 1) := mvnpdf2_zero_diag _ (by norm_num)
  have hd : (decide (GeoLaneBoundaryFactor._conditional_prob_type 0 0 >
      GeoLaneBoundaryFactor.sem_gate)) = true :=
    decide_eq_true ((gate_pass_iff 0 0).mpr rfl)
  constructor
  · refine Prod.ext ?_ rfl
    unfold GeoLaneBoundaryFactor.error GeoLaneBoundaryFactor.errorTail csFactor csPose
      csExtractor csConfig
    simp only [ExpectedLaneExtractor.extract, GeoLaneBoundaryFactor._get_pose_diff,
      GeoLaneBoundaryFactor._compute_expected_c0c1, driftNumerator, driftDenominator,
      Transform.from_conventional, Transform.tform_w2e_numpy_array, get_fbumper_location,
      GeoLaneBoundaryFactor._null_hypo_normal_form, if_true, Bool.false_eq_true, if_false,
      List.map_cons, List.map_nil, List.zip_cons_cons, List.zip_nil_right, List.filter,
      hd, Matrix.mul_zero, Matrix.zero_mul, zero_add]
    norm_num [Real.cos_zero, Real.sin_zero, Real.tan_zero, hq3, hq1,
      GeoLaneBoundaryFactor._conditional_prob_type]
    split <;> rfl
  · have harg : npArgmax
        [1 / 2 * (1 / 3000 * (Real.pi⁻¹ * (1 / 2))),
         1 / 2 * (Real.pi⁻¹ * (1 / 2) * (19 / 20) / (Real.pi⁻¹ * (1 / 2) * (19 / 20))) *
           (Real.pi⁻¹ * (1 / 2))] = 1 := by
      apply npArgmax_pair_snd
      have hip : (0 : ℝ) < Real.pi⁻¹ := by positivity
      rw [div_self (by positivity : Real.pi⁻¹ * (1 / 2) * ((19 : ℝ) / 20) ≠ 0)]
      nlinarith [hip]
    unfold GeoLaneBoundaryFactor.error GeoLaneBoundaryFactor.errorTail csFactor csPose
      csExtractor csConfig
    simp only [ExpectedLaneExtractor.extract, GeoLaneBoundaryFactor._get_pose_diff,
      GeoLaneBoundaryFactor._compute_expected_c0c1, driftNumerator, driftDenominator,
      Transform.from_conventional, Transform.tform_w2e_numpy_array, get_fbumper_location,
      GeoLaneBoundaryFactor._null_hypo_normal_form, if_true, Bool.false_eq_true, if_false,
      List.map_cons, List.map_nil, List.zip_cons_cons, List.zip_nil_right, List.filter,
      hd, Matrix.mul_zero, Matrix.zero_mul, zero_add]
    norm_num [Real.cos_zero, Real.sin_zero, Real.tan_zero, hq3, hq1,
      GeoLaneBoundaryFactor._conditional_prob_type]
    rw [harg]

set_option maxHeartbeats 1000000 in
/-- Every state that `errorTail` returns with `Except.ok` has
`expected_coeffs` assigned. -/
theorem errorTail_ok_expected_coeffs (t : GeoLaneBoundaryFactor)
    (loc ori : ℝ × ℝ × ℝ) (ecl : List (ℝ × ℝ)) (etl : Option (List ℕ))
    (r : ℝ × ℝ) (u : GeoLaneBoundaryFactor)
    (h : t.errorTail loc ori ecl etl = (Except.ok r, u)) :
    ∃ c : ℝ × ℝ, u.expected_coeffs = some c := by
  unfold GeoLaneBoundaryFactor.errorTail at h
  repeat' (first
    | (split at h)
    | (simp only [Bool.or_self, Bool.false_eq_true, if_false] at h))
  all_goals (first
    | (injection h with hv hs; subst hs; exact ⟨_, rfl⟩)
    | (injection h with hv hs; cases hv))

set_option maxHeartbeats 1000000 in
/-- Every `error` call that returns leaves `expected_coeffs` assigned. -/
theorem error_ok_expected_coeffs (s : GeoLaneBoundaryFactor) (pose : SE2Pose)
    (r : ℝ × ℝ) (u : GeoLaneBoundaryFactor)
    (h : s.error pose = (Except.ok r, u)) :
    ∃ c : ℝ × ℝ, u.expected_coeffs = some c := by
  unfold GeoLaneBoundaryFactor.error at h
  cases hft : s._first_time <;> cases hstat : s.static <;>
    simp only [hft, hstat, Bool.false_eq_true, if_false, if_true] at h
  all_goals (repeat' (first
    | (split at h)
    | (simp only [Bool.or_self, Bool.false_eq_true, if_false] at h)))
  all_goals (first
    | (exact errorTail_ok_expected_coeffs _ _ _ _ _ _ _ h)
    | (simp only [Prod.mk.injEq] at h; simp_all))

set_option maxHeartbeats 1000000 in
/-- `errorTail` applied to an empty expected-coefficient list selects the
null hypothesis whenever it returns. -/
theorem errorTail_nil_null (t : GeoLaneBoundaryFactor) (loc ori : ℝ × ℝ × ℝ)
    (etl : Option (List ℕ)) (r : ℝ × ℝ) (u : GeoLaneBoundaryFactor)
    (h : t.errorTail loc ori [] etl = (Except.ok r, u)) : u._null_hypo = true := by
  unfold GeoLaneBoundaryFactor.errorTail at h
  split at h
  · injection h with hv hs
    cases hv
  · simp only [Bool.or_self, Bool.false_eq_true, if_false, List.map_nil] at h
    injection h with hv hs
    subst hs
    rfl

/-- C2: for every evaluation that selects a matched (non-null) winning
hypothesis, the winner corresponds to an expected marking whose semantic
compatibility with the detection strictly exceeds the gate threshold 0.9 —
so a candidate with compatibility at most the gate (in particular any
candidate whose type label differs from the detection's, compatibility
0.0045) is never selected as the winning hypothesis, no matter how large
its geometric likelihood: indeed the winner's type label always equals the
detection's. -/
theorem C2_semantic_gate_enforced (s : GeoLaneBoundaryFactor) (pose : SE2Pose)
    (r : ℝ × ℝ) (u : GeoLaneBoundaryFactor)
    (h : s.error pose = (Except.ok r, u)) (hnull : u._null_hypo = false) :
    ∃ (mks : List LaneMarking) (m : LaneMarking),
      u.me_format_expected_markings = some mks ∧ m ∈ mks ∧
      u.expected_coeffs = some (m.c0, m.c1) ∧
      GeoLaneBoundaryFactor._conditional_prob_type m.ty s.detected_marking.ty >
        GeoLaneBoundaryFactor.sem_gate ∧
      m.ty = s.detected_marking.ty := by
  obtain ⟨mks, m, Hw, k, _, _, hme, hm, hcoef, hgate, hty, _⟩ :=
    error_matched_inv s pose r u h hnull
  exact ⟨mks, m, hme, hm, hcoef, hgate, hty⟩

/-- Witness for C2 at the concrete matched evaluation. -/
theorem C2_witness :
    ∃ (mks : List LaneMarking) (m : LaneMarking),
      ((csFactor.error csPose).2).me_format_expected_markings = some mks ∧ m ∈ mks ∧
      ((csFactor.error csPose).2).expected_coeffs = some (m.c0, m.c1) ∧
      GeoLaneBoundaryFactor._conditional_prob_type m.ty csFactor.detected_marking.ty >
        GeoLaneBoundaryFactor.sem_gate ∧
      m.ty = csFactor.detected_marking.ty :=
  C2_semantic_gate_enforced csFactor csPose (0, 0) ((csFactor.error csPose).2)
    csFactor_eval.1 csFactor_eval.2

/-- C4: whenever a matched (non-null) hypothesis wins, the downscale
factor `_scale` equals the square of the winning hypothesis's normalized
weight `(1 - prob_null) * (Hw[k] / Hw.sum)`, it lies in `[0, 1]` given
`prob_null ∈ [0, 1]`, and it multiplies both the returned residual and the
Jacobian. -/
theorem C4_matched_downscale (s : GeoLaneBoundaryFactor) (pose : SE2Pose)
    (r : ℝ × ℝ) (u : GeoLaneBoundaryFactor)
    (h : s.error pose = (Except.ok r, u)) (hnull : u._null_hypo = false)
    (hp0 : 0 ≤ s.prob_null) (hp1 : s.prob_null ≤ 1) :
    ∃ (w : ℝ) (eraw c : ℝ × ℝ),
      (∃ (Hw : List ℝ) (k : ℕ), (∀ x ∈ Hw, 0 ≤ x) ∧ k < Hw.length ∧
        w = (1 - s.prob_null) * (Hw.getD k 0 / Hw.sum)) ∧
      u._scale = w ^ 2 ∧ 0 ≤ w ∧ w ≤ 1 ∧ 0 ≤ u._scale ∧ u._scale ≤ 1 ∧
      r = (eraw.1 * u._scale, eraw.2 * u._scale) ∧
      u.expected_coeffs = some c ∧
      GeoLaneBoundaryFactor.jacobians u =
        Except.ok (u._scale • compute_H u.px c.1 c.2) := by
  obtain ⟨mks, m, Hw, k, _, _, _, _, hcoef, _, _, hnn, hkl, hscale, hres, hnl⟩ :=
    error_matched_inv s pose r u h hnull
  have hg : Hw.getD k 0 ∈ Hw := by
    rw [List.getD_eq_getElem _ _ hkl]
    exact List.getElem_mem _
  have h0g : 0 ≤ Hw.getD k 0 := hnn _ hg
  have hsum : Hw.getD k 0 ≤ Hw.sum := List.single_le_sum hnn _ hg
  have hsum0 : 0 ≤ Hw.sum := List.sum_nonneg hnn
  have hw0 : 0 ≤ (1 - s.prob_null) * (Hw.getD k 0 / Hw.sum) :=
    mul_nonneg (by linarith) (div_nonneg h0g hsum0)
  have hw1 : (1 - s.prob_null) * (Hw.getD k 0 / Hw.sum) ≤ 1 := by
    have hd1 : Hw.getD k 0 / Hw.sum ≤ 1 := div_le_one_of_le hsum hsum0
    nlinarith
  refine ⟨_, (m.c0 - s.detected_marking.c0, m.c1 - s.detected_marking.c1), (m.c0, m.c1),
    ⟨Hw, k, hnn, hkl, rfl⟩, hscale, hw0, hw1, ?_, ?_, hres, hcoef, ?_⟩
  · rw [hscale]
    exact sq_nonneg _
  · rw [hscale]
    exact pow_le_one₀ hw0 hw1
  · unfold GeoLaneBoundaryFactor.jacobians
    rw [hcoef]
    simp [hnl]

/-- Witness for C4 at the concrete matched evaluation. -/
theorem C4_witness :
    ∃ (w : ℝ) (eraw c : ℝ × ℝ),
      (∃ (Hw : List ℝ) (k : ℕ), (∀ x ∈ Hw, 0 ≤ x) ∧ k < Hw.length ∧
        w = (1 - csFactor.prob_null) * (Hw.getD k 0 / Hw.sum)) ∧
      ((csFactor.error csPose).2)._scale = w ^ 2 ∧ 0 ≤ w ∧ w ≤ 1 ∧
      0 ≤ ((csFactor.error csPose).2)._scale ∧
      ((csFactor.error csPose).2)._scale ≤ 1 ∧
      (0, 0) = (eraw.1 * ((csFactor.error csPose).2)._scale,
        eraw.2 * ((csFactor.error csPose).2)._scale) ∧
      ((csFactor.error csPose).2).expected_coeffs = some c ∧
      GeoLaneBoundaryFactor.jacobians ((csFactor.error csPose).2) =
        Except.ok (((csFactor.error csPose).2)._scale •
          compute_H ((csFactor.error csPose).2).px c.1 c.2) :=
  C4_matched_downscale csFactor csPose (0, 0) ((csFactor.error csPose).2)
    csFactor_eval.1 csFactor_eval.2 (by norm_num [csFactor]) (by norm_num [csFactor])

/-- C10: calling `jacobians` on a freshly constructed factor (before any
`error` evaluation) raises a `TypeError` because `expected_coeffs` is
still `None`; after any `error` evaluation that returns, `jacobians`
returns the H matrix computed at the expected coefficients of the
hypothesis selected by that evaluation, scaled by the fixed factor `1e-2`
when the null hypothesis was selected and by `_scale` otherwise. -/
theorem C10_jacobians_lifecycle :
    (∀ (ext : ExpectedLaneExtractor) (dm : LaneMarking) (z : ℝ)
        (pu : Matrix (Fin 3) (Fin 3) ℝ) (px : ℝ) (cfg : LaneFactorConfig)
        (s0 : GeoLaneBoundaryFactor),
      GeoLaneBoundaryFactor.init (some ext) dm z pu px cfg = Except.ok s0 →
      GeoLaneBoundaryFactor.jacobians s0 =
        Except.error (PyErr.typeError "cannot unpack non-iterable NoneType object")) ∧
    (∀ (s : GeoLaneBoundaryFactor) (pose : SE2Pose) (r : ℝ × ℝ)
        (u : GeoLaneBoundaryFactor),
      s.error pose = (Except.ok r, u) →
      ∃ c : ℝ × ℝ, u.expected_coeffs = some c ∧
        GeoLaneBoundaryFactor.jacobians u =
          Except.ok ((if u._null_hypo then (1e-2 : ℝ) else u._scale) •
            compute_H u.px c.1 c.2)) := by
  constructor
  · intro ext dm z pu px cfg s0 h0
    injection h0 with hs
    subst hs
    rfl
  · intro s pose r u h
    obtain ⟨c, hc⟩ := error_ok_expected_coeffs s pose r u h
    refine ⟨c, hc, ?_⟩
    unfold GeoLaneBoundaryFactor.jacobians
    rw [hc]
    cases hb : u._null_hypo <;> simp [hb]

/-- Witness for C10: the concrete freshly-constructed factor (which
`init` produces) and the concrete completed evaluation. -/
theorem C10_witness :
    GeoLaneBoundaryFactor.jacobians csFactor =
      Except.error (PyErr.typeError "cannot unpack non-iterable NoneType object") ∧
    (∃ c : ℝ × ℝ, ((csFactor.error csPose).2).expected_coeffs = some c ∧
      GeoLaneBoundaryFactor.jacobians ((csFactor.error csPose).2) =
        Except.ok ((if ((csFactor.error csPose).2)._null_hypo then (1e-2 : ℝ)
          else ((csFactor.error csPose).2)._scale) •
          compute_H ((csFactor.error csPose).2).px c.1 c.2)) :=
  ⟨C10_jacobians_lifecycle.1 csExtractor { c0 := 0, c1 := 0, ty := 0 } 0 0 0 csConfig
      csFactor rfl,
   C10_jacobians_lifecycle.2 csFactor csPose (0, 0) ((csFactor.error csPose).2)
      csFactor_eval.1⟩

/-- Counterexample to C1 as stated: at this concrete evaluation the
extractor reports `in_junction = true` for the query, the evaluation
returns normally, yet the factor does **not** select the null hypothesis
(the matched candidate wins), because `error` overwrites both junction
flags with `False` before the junction test. -/
theorem C1_counterexample :
    csFactor.expected_lane_extractor.inJunctionAt
      (get_fbumper_location (csPose.x, csPose.y, csFactor.z)
        ((0 : ℝ), (0 : ℝ), csPose.theta) csFactor.px)
      ((0 : ℝ), (0 : ℝ), csPose.theta) = true ∧
    (csFactor.error csPose).1.isOk = true ∧
    ((csFactor.error csPose).2)._null_hypo = false := by
  refine ⟨rfl, ?_, csFactor_eval.2⟩
  rw [csFactor_eval.1]
  rfl

set_option maxHeartbeats 1000000 in
/-- C1 (amended): if the expected-feature list of the evaluation is empty
— the extractor returned zero features (dynamic mode or the first static
call), or the static snapshot is empty (later static calls) — then every
`error` call that returns selects the null hypothesis, for all detection
values.  The junction flags reported by the extractor cannot force the
null hypothesis, since they are overwritten with `False` before the
junction test. -/
theorem C1_zero_features_null (s : GeoLaneBoundaryFactor) (pose : SE2Pose)
    (r : ℝ × ℝ) (u : GeoLaneBoundaryFactor)
    (h : s.error pose = (Except.ok r, u)) :
    ((s.static = false ∨ s._first_time = true) →
      s.expected_lane_extractor.featuresAt
        (get_fbumper_location (pose.x, pose.y, s.z) (0, 0, pose.theta) s.px)
        (0, 0, pose.theta) = [] →
      u._null_hypo = true) ∧
    (s.static = true → s._first_time = false → s._init_normal_forms = some [] →
      u._null_hypo = true) := by
  constructor
  · intro hmode hfeats
    unfold GeoLaneBoundaryFactor.error at h
    cases hft : s._first_time <;> cases hstat : s.static <;>
      simp only [hft, hstat, Bool.false_eq_true, if_false, if_true,
        ExpectedLaneExtractor.extract] at h
    · rw [hfeats] at h
      simp only [List.map_nil] at h
      exact errorTail_nil_null _ _ _ _ _ _ h
    · rcases hmode with hm | hm
      · rw [hstat] at hm
        exact Bool.noConfusion hm
      · rw [hft] at hm
        exact Bool.noConfusion hm
    · rw [hfeats] at h
      simp only [List.map_nil] at h
      exact errorTail_nil_null _ _ _ _ _ _ h
    · rw [hfeats] at h
      simp only [List.map_nil] at h
      exact errorTail_nil_null _ _ _ _ _ _ h
  · intro hstat2 hft2 hnf2
    unfold GeoLaneBoundaryFactor.error at h
    simp only [hstat2, hft2, Bool.false_eq_true, if_false, if_true] at h
    rcases hpd : s._get_pose_diff (pose.x, pose.y, s.z) (0, 0, pose.theta) with e | pd <;>
      simp only [hpd, hnf2] at h
    · injection h with hv hs
      cases hv
    · simp only [List.map_nil] at h
      exact errorTail_nil_null _ _ _ _ _ _ h

/-- Concrete extractor returning no expected features. -/
noncomputable def cs2Extractor : ExpectedLaneExtractor where
  inJunctionAt := fun _ _ => false
  intoJunctionAt := fun _ _ => false
  featuresAt := fun _ _ => []

/-- The concrete factor with the empty-features extractor. -/
noncomputable def cs2Factor : GeoLaneBoundaryFactor :=
  { csFactor with expected_lane_extractor := cs2Extractor }

set_option maxHeartbeats 4000000 in
/-- Evaluating the empty-features factor: the call returns normally. -/
theorem cs2Factor_eval :
    cs2Factor.error csPose = (Except.ok (0, 0), (cs2Factor.error csPose).2) := by
  refine Prod.ext ?_ rfl
  unfold GeoLaneBoundaryFactor.error GeoLaneBoundaryFactor.errorTail cs2Factor csFactor
    csPose cs2Extractor csConfig
  simp only [ExpectedLaneExtractor.extract, GeoLaneBoundaryFactor._get_pose_diff,
    GeoLaneBoundaryFactor._compute_expected_c0c1, driftNumerator, driftDenominator,
    Transform.from_conventional, Transform.tform_w2e_numpy_array, get_fbumper_location,
    GeoLaneBoundaryFactor._null_hypo_normal_form, if_true, Bool.false_eq_true, if_false,
    List.map_nil]
  norm_num [Real.cos_zero, Real.sin_zero, Real.tan_zero]

/-- Witness for the amended C1 at the concrete empty-features factor. -/
theorem C1_witness :
    (cs2Factor.static = false ∨ cs2Factor._first_time = true) ∧
    cs2Factor.expected_lane_extractor.featuresAt
      (get_fbumper_location (csPose.x, csPose.y, cs2Factor.z)
        (0, 0, csPose.theta) cs2Factor.px) (0, 0, csPose.theta) = [] ∧
    ((cs2Factor.error csPose).2)._null_hypo = true :=
  ⟨Or.inl rfl, rfl,
    (C1_zero_features_null cs2Factor csPose (0, 0) ((cs2Factor.error csPose).2)
      cs2Factor_eval).1 (Or.inl rfl) rfl⟩

/-- Witness for C9: the concrete completed evaluation has both junction
flags reset, and swapping the junction-flag components of the extractor
leaves the returned value unchanged. -/
theorem C9_witness :
    (((csFactor.error csPose).2).in_junction = false ∧
      ((csFactor.error csPose).2).into_junction = false) ∧
    (({ csFactor with expected_lane_extractor :=
          ⟨fun _ _ => true, fun _ _ => false,
           fun _ _ => [{ c0 := 0, c1 := 0, ty := 0 }]⟩ } :
        GeoLaneBoundaryFactor).error csPose).1 =
    (({ csFactor with expected_lane_extractor :=
          ⟨fun _ _ => false, fun _ _ => false,
           fun _ _ => [{ c0 := 0, c1 := 0, ty := 0 }]⟩ } :
        GeoLaneBoundaryFactor).error csPose).1 :=
  ⟨(C9_junction_flags_reset csFactor csPose (fun _ _ => true) (fun _ _ => false)
      (fun _ _ => false) (fun _ _ => false)
      (fun _ _ => [{ c0 := 0, c1 := 0, ty := 0 }])).1
    (0, 0) ((csFactor.error csPose).2) csFactor_eval.1,
   (C9_junction_flags_reset csFactor csPose (fun _ _ => true) (fun _ _ => false)
      (fun _ _ => false) (fun _ _ => false)
      (fun _ _ => [{ c0 := 0, c1 := 0, ty := 0 }])).2⟩

/-- The concrete factor in static mode. -/
noncomputable def cs3Factor : GeoLaneBoundaryFactor :=
  { csFactor with static := true }

/-- Witness for C3: the static-mode instance satisfies the hypotheses, so
its snapshot is captured at the first call and preserved across a further
evaluation. -/
theorem C3_witness :
    cs3Factor.static = true ∧ cs3Factor._first_time = true ∧
    ((((cs3Factor.error csPose).2)._init_tform =
        some (Transform.from_conventional (csPose.x, csPose.y, cs3Factor.z)
          (0, 0, csPose.theta)) ∧
      ((cs3Factor.error csPose).2)._init_orientation =
        some ((0 : ℝ), (0 : ℝ), csPose.theta) ∧
      ((cs3Factor.error csPose).2)._init_normal_forms =
        some (((cs3Factor.expected_lane_extractor.featuresAt
              (get_fbumper_location (csPose.x, csPose.y, cs3Factor.z)
                (0, 0, csPose.theta) cs3Factor.px)
              (0, 0, csPose.theta)).map fun m => (m.c0, m.c1)).map fun c =>
            compute_normal_form_line_coeffs cs3Factor.px c.1 c.2) ∧
      ((cs3Factor.error csPose).2)._first_time = false) ∧
    (([csPose].foldl (fun u q => (u.error q).2) ((cs3Factor.error csPose).2))._init_tform =
        ((cs3Factor.error csPose).2)._init_tform ∧
      ([csPose].foldl (fun u q => (u.error q).2)
          ((cs3Factor.error csPose).2))._init_orientation =
        ((cs3Factor.error csPose).2)._init_orientation ∧
      ([csPose].foldl (fun u q => (u.error q).2)
          ((cs3Factor.error csPose).2))._init_normal_forms =
        ((cs3Factor.error csPose).2)._init_normal_forms)) :=
  ⟨rfl, rfl, C3_static_snapshot_write_once cs3Factor csPose [csPose] rfl rfl⟩
